import Mathlib

/-!
Verification of the appointment scheduling core of the GoBarber backend
(src/backend/src/app/controllers/AppointmentController.js), shallowly
embedded in Lean 4.

Timestamps are modelled as `Int` seconds since an epoch.  The date-fns
helpers used by the controller (`startOfHour`, `startOfDay`, `endOfDay`,
`subHours`, `isBefore`) become integer arithmetic at second granularity.
The Sequelize queries become `List.find?` over an explicit in-memory
state (`DB`).  Fallible paths return explicit result constructors; the
JavaScript `TypeError` raised by `delete` when `findByPk` yields `null`
is modelled by the dedicated outcome `nullCrash`, and a synchronous
throw of `Queue.add` by the outcome `queueThrow`.
-/

/-- A user record, as consumed by the controller:
`User.findOne({ where: { id, provider: true } })`. -/
structure User where
  id : Nat
  name : String
  provider : Bool
deriving DecidableEq

/-- An appointment row: `user_id` is the booking client, `date` the
hour-aligned slot, `canceled_at = none` means active. -/
structure Appointment where
  id : Nat
  user_id : Nat
  provider_id : Nat
  date : Int
  canceled_at : Option Int
deriving DecidableEq

/-- A provider-facing notification.  The controller renders a
locale-formatted Portuguese string from the client name and the slot;
the rendered text is outside the model, so we keep the data the string
is built from: the recipient (`user: provider_id`) and the slot. -/
structure Notification where
  user : Nat
  date : Int
deriving DecidableEq

/-- The persistent state the controller reads and writes: the user
directory, the appointment store, the notification sink, the mail job
queue (payload: the appointment snapshot passed to `Queue.add`), and
the next primary key the store assigns. -/
structure DB where
  users : List User
  appointments : List Appointment
  notifications : List Notification
  queue : List Appointment
  nextId : Nat
deriving DecidableEq

/-- date-fns `startOfHour`: truncate to the enclosing hour. -/
def startOfHour (t : Int) : Int := t - t % 3600

/-- date-fns `startOfDay`: truncate to the enclosing day. -/
def startOfDay (t : Int) : Int := t - t % 86400

/-- date-fns `endOfDay`: last second of the enclosing day. -/
def endOfDay (t : Int) : Int := startOfDay t + 86399

/-- date-fns `subHours t 2` = `t - 2h`. -/
def subHours (t : Int) (h : Int) : Int := t - h * 3600

/-- date-fns `isBefore a b`: `a` strictly earlier than `b`. -/
def isBefore (a b : Int) : Bool := decide (a < b)

/-- The request body of `store`.  `none` in a field models a body the
Yup schema rejects (missing field, or a `date` that does not parse). -/
structure StoreBody where
  provider_id : Option Nat
  date : Option Int
deriving DecidableEq

/-- The rejection reasons `store` can produce, in the controller's own
`400`-response order: the Yup failure, then the five business checks. -/
inductive StoreReason where
  | validationFail
  | selfBooking
  | notAProvider
  | pastDate
  | slotTaken
  | duplicateSameDay
deriving DecidableEq

/-- Result of `store`: an error response or the created appointment. -/
inductive StoreResult where
  | err (r : StoreReason)
  | ok (a : Appointment)
deriving DecidableEq

/-- Query `User.findOne({ where: { id: provider_id, provider: true } })`. -/
def findProvider (db : DB) (pid : Nat) : Option User :=
  db.users.find? (fun u => decide (u.id = pid) && u.provider)

/-- Query `Appointment.findOne({ where: { provider_id, canceled_at: null,
date: hourStart } })` — the slot-occupancy probe. -/
def checkAvailability (db : DB) (pid : Nat) (hourStart : Int) : Option Appointment :=
  db.appointments.find?
    (fun a => decide (a.provider_id = pid) && a.canceled_at.isNone && decide (a.date = hourStart))

/-- Query `Appointment.findOne` with `user_id`, `canceled_at: null` and
`date` between `startOfDay(parsedDate)` and `endOfDay(parsedDate)`
— the same-day probe (`Op.between` is inclusive). -/
def checkUserHaveAppointment (db : DB) (userId : Nat) (parsedDate : Int) : Option Appointment :=
  db.appointments.find?
    (fun a => decide (a.user_id = userId) && a.canceled_at.isNone &&
      decide (startOfDay parsedDate ≤ a.date) && decide (a.date ≤ endOfDay parsedDate))

/-- Action `AppointmentController.store` (booking).  `userId` is `req.userId`,
`now` the value of `new Date()`.  Mirrors the controller line by line:
Yup schema, self-booking check, provider check, past-date check on the
hour-truncated date, slot probe, same-day probe, then the create of the
appointment (with `date: hourStart`) and of the notification. -/
def store (db : DB) (userId : Nat) (body : StoreBody) (now : Int) : StoreResult × DB :=
  match body.provider_id, body.date with
  | some provider_id, some date =>
    if provider_id = userId then
      (.err .selfBooking, db)
    else if (findProvider db provider_id).isNone then
      (.err .notAProvider, db)
    else
      let hourStart := startOfHour date
      if isBefore hourStart now then
        (.err .pastDate, db)
      else if (checkAvailability db provider_id hourStart).isSome then
        (.err .slotTaken, db)
      else
        let parsedDate := date
        if (checkUserHaveAppointment db userId parsedDate).isSome then
          (.err .duplicateSameDay, db)
        else
          let appointment : Appointment :=
            { id := db.nextId, user_id := userId, provider_id := provider_id,
              date := hourStart, canceled_at := none }
          (.ok appointment,
            { db with
                appointments := db.appointments ++ [appointment],
                notifications := db.notifications ++ [{ user := provider_id, date := hourStart }],
                nextId := db.nextId + 1 })
  | _, _ => (.err .validationFail, db)

/-- Outcome of `AppointmentController.delete`.  `nullCrash` is the
`TypeError` thrown when `findByPk` returns `null` and the controller
dereferences `appointment.user_id`; `queueThrow` is a synchronous
throw of `Queue.add` after `appointment.save()` committed. -/
inductive CancelOutcome where
  | nullCrash
  | forbidden
  | tooLate
  | alreadyCanceled
  | queueThrow
  | ok (a : Appointment)
deriving DecidableEq

/-- Query `Appointment.findByPk(req.params.id)`. -/
def findByPk (db : DB) (apptId : Nat) : Option Appointment :=
  db.appointments.find? (fun a => decide (a.id = apptId))

/-- Effect of `appointment.save()` after `appointment.canceled_at = new Date()`:
the row with the given primary key gets `canceled_at := some now`. -/
def saveCanceled (l : List Appointment) (apptId : Nat) (now : Int) : List Appointment :=
  l.map (fun a => if a.id = apptId then { a with canceled_at := some now } else a)

/-- Action `AppointmentController.delete` (cancellation).  `userId` is
`req.userId`, `apptId` is `req.params.id`, `now` the current time, and
`queueOk` whether `Queue.add` succeeds.  Mirrors the controller:
`findByPk` (no null guard — a `null` result crashes), ownership check,
grace-window check, already-canceled check, then mutate + save, then
enqueue, then respond with the updated appointment. -/
def delete (db : DB) (userId : Nat) (apptId : Nat) (now : Int) (queueOk : Bool) :
    CancelOutcome × DB :=
  match findByPk db apptId with
  | none => (.nullCrash, db)
  | some appointment =>
    if appointment.user_id ≠ userId then
      (.forbidden, db)
    else
      let dateWithSub := subHours appointment.date 2
      if isBefore dateWithSub now then
        (.tooLate, db)
      else if appointment.canceled_at ≠ none then
        (.alreadyCanceled, db)
      else
        let updated : Appointment := { appointment with canceled_at := some now }
        let db' : DB := { db with appointments := saveCanceled db.appointments apptId now }
        if queueOk then
          (.ok updated, { db' with queue := db'.queue ++ [updated] })
        else
          (.queueThrow, db')

/-- Two appointments clash when both are active and occupy the same
`(provider_id, date)` slot. -/
def ActiveSlotClash (a b : Appointment) : Prop :=
  a.canceled_at = none ∧ b.canceled_at = none ∧
    a.provider_id = b.provider_id ∧ a.date = b.date

instance : DecidableRel ActiveSlotClash := fun a b => by
  unfold ActiveSlotClash; infer_instance

/-- Slot exclusivity: no two active appointments in the store share a
`(provider_id, date)` pair. -/
def SlotInvariant (db : DB) : Prop :=
  db.appointments.Pairwise (fun a b => ¬ ActiveSlotClash a b)

instance (db : DB) : Decidable (SlotInvariant db) := by
  unfold SlotInvariant; infer_instance

/-- One `store` request: the authenticated user, the body, the clock. -/
structure StoreReq where
  userId : Nat
  body : StoreBody
  now : Int

/-- Run a sequence of `store` (booking) calls, threading the state. -/
def runStores (db : DB) (reqs : List StoreReq) : DB :=
  reqs.foldl (fun d r => (store d r.userId r.body r.now).2) db

/-- Modelled from the spec: section 4.1's validation order, "first
failing check wins, short-circuit": (1) `providerId != clientId`;
(2) provider must exist and be flagged as a provider; (3)
`hourStart(requestedTime)` must not be before `now`; (4) slot must be
free; (5) client must not already have a same-day booking.  Returns
the first failing check's reason, `none` when all pass.  Stated from
the spec's words, to be compared with `store` (refinement). -/
def specFirstFailure (db : DB) (clientId pid : Nat) (d now : Int) : Option StoreReason :=
  if pid = clientId then some .selfBooking
  else if (findProvider db pid).isNone then some .notAProvider
  else if isBefore (startOfHour d) now then some .pastDate
  else if (checkAvailability db pid (startOfHour d)).isSome then some .slotTaken
  else if (checkUserHaveAppointment db clientId d).isSome then some .duplicateSameDay
  else none

/-- Example state for C1: one provider, empty appointment store. -/
def dbC1 : DB :=
  { users := [{ id := 2, name := "p", provider := true }],
    appointments := [], notifications := [], queue := [], nextId := 1 }

/-- Example state for C2: one active appointment of client 1 with
provider 2 at slot 7200 (two hours past the epoch). -/
def dbC2 : DB :=
  { users := [],
    appointments := [{ id := 1, user_id := 1, provider_id := 2, date := 7200,
                       canceled_at := none }],
    notifications := [], queue := [], nextId := 2 }

/-- Example state for C3: one provider, empty appointment store. -/
def dbC3 : DB :=
  { users := [{ id := 2, name := "p", provider := true }],
    appointments := [], notifications := [], queue := [], nextId := 1 }

/-- Example state for C4's counterexample: an already-canceled
appointment whose slot lies in the past (grace window over). -/
def dbC4 : DB :=
  { users := [],
    appointments := [{ id := 1, user_id := 1, provider_id := 2, date := 0,
                       canceled_at := some 0 }],
    notifications := [], queue := [], nextId := 2 }

/-- Example state for C4's witness: an already-canceled appointment
whose grace window is still open at time 0. -/
def dbC4w : DB :=
  { users := [],
    appointments := [{ id := 1, user_id := 1, provider_id := 2, date := 7200,
                       canceled_at := some 0 }],
    notifications := [], queue := [], nextId := 2 }

/-- Example state for C5: a user exists but no appointment does. -/
def dbC5 : DB :=
  { users := [{ id := 1, name := "c", provider := false }],
    appointments := [], notifications := [], queue := [], nextId := 1 }

/-- Example state for C8: empty store. -/
def dbC8 : DB :=
  { users := [], appointments := [], notifications := [], queue := [], nextId := 1 }

/-- Example state for C9: one active cancelable appointment. -/
def dbC9 : DB :=
  { users := [],
    appointments := [{ id := 1, user_id := 1, provider_id := 2, date := 7200,
                       canceled_at := none }],
    notifications := [], queue := [], nextId := 2 }

/-- Example state for C10: two active appointments of distinct clients. -/
def dbC10 : DB :=
  { users := [],
    appointments := [{ id := 1, user_id := 1, provider_id := 2, date := 7200,
                       canceled_at := none },
                     { id := 2, user_id := 3, provider_id := 4, date := 9999,
                       canceled_at := none }],
    notifications := [], queue := [], nextId := 3 }

theorem store_state_cases (db : DB) (u : Nat) (b : StoreBody) (now : Int) :
    (store db u b now).2 = db ∨
      ∃ pid d, b.provider_id = some pid ∧ b.date = some d ∧
        checkAvailability db pid (startOfHour d) = none ∧
        (store db u b now).2 =
          { db with
              appointments := db.appointments ++
                [{ id := db.nextId, user_id := u, provider_id := pid,
                   date := startOfHour d, canceled_at := none }],
              notifications := db.notifications ++
                [{ user := pid, date := startOfHour d }],
              nextId := db.nextId + 1 } := by
  rcases b with ⟨po, dato⟩
  cases po with
  | none => left; rfl
  | some pid =>
    cases dato with
    | none => left; rfl
    | some d =>
      by_cases h1 : pid = u
      · left; simp [store, h1]
      · by_cases h2 : (findProvider db pid).isNone
        · left; simp [store, h1, h2]
        · by_cases h3 : isBefore (startOfHour d) now
          · left; simp [store, h1, h2, h3]
          · by_cases h4 : (checkAvailability db pid (startOfHour d)).isSome
            · left; simp [store, h1, h2, h3, h4]
            · by_cases h5 : (checkUserHaveAppointment db u d).isSome
              · left; simp [store, h1, h2, h3, h4, h5]
              · right
                refine ⟨pid, d, rfl, rfl, ?_, ?_⟩
                · exact Option.not_isSome_iff_eq_none.mp h4
                · simp [store, h1, h2, h3, h4, h5]

theorem slot_push (db : DB) (pid : Nat) (hs : Int) (newA : Appointment)
    (hfree : checkAvailability db pid hs = none)
    (h : SlotInvariant db)
    (hp : newA.provider_id = pid) (hd : newA.date = hs) :
    (db.appointments ++ [newA]).Pairwise (fun a b => ¬ ActiveSlotClash a b) := by
  rw [List.pairwise_append]
  refine ⟨h, by simp, ?_⟩
  intro a ha b hb
  simp only [List.mem_singleton] at hb
  subst hb
  rintro ⟨hac, _, hprov, hdate⟩
  have := List.find?_eq_none.mp hfree a ha
  apply this
  simp [hac, hprov, hdate, hp, hd]

theorem store_preserves_slot (db : DB) (u : Nat) (b : StoreBody) (now : Int)
    (h : SlotInvariant db) : SlotInvariant (store db u b now).2 := by
  rcases store_state_cases db u b now with heq | ⟨pid, d, _, _, hfree, heq⟩
  · rw [heq]; exact h
  · rw [heq]
    exact slot_push db pid (startOfHour d) _ hfree h rfl rfl

theorem runStores_preserves_slot (db : DB) (reqs : List StoreReq)
    (h : SlotInvariant db) : SlotInvariant (runStores db reqs) := by
  induction reqs generalizing db with
  | nil => exact h
  | cons r rs ih =>
    exact ih _ (store_preserves_slot db r.userId r.body r.now h)

/-- C7: No self-booking — for every user `u` and every input date `t`,
`createAppointment(u, u, t)` rejects with SelfBooking, regardless of
`t`, and leaves the state unchanged. -/
theorem no_self_booking (db : DB) (u : Nat) (t now : Int) :
    store db u { provider_id := some u, date := some t } now = (.err .selfBooking, db) := by
  simp [store]

/-- C8: Rejection atomicity of booking — whenever `store` returns any
rejection, the state (appointment store, notification sink, queue,
id counter) is unchanged. -/
theorem booking_rejection_atomic (db : DB) (u : Nat) (b : StoreBody) (now : Int)
    (r : StoreReason) (h : (store db u b now).1 = .err r) :
    (store db u b now).2 = db := by
  rcases b with ⟨po, dato⟩
  cases po with
  | none => rfl
  | some pid =>
    cases dato with
    | none => rfl
    | some d =>
      by_cases h1 : pid = u
      · simp [store, h1]
      · by_cases h2 : (findProvider db pid).isNone
        · simp [store, h1, h2]
        · by_cases h3 : isBefore (startOfHour d) now
          · simp [store, h1, h2, h3]
          · by_cases h4 : (checkAvailability db pid (startOfHour d)).isSome
            · simp [store, h1, h2, h3, h4]
            · by_cases h5 : (checkUserHaveAppointment db u d).isSome
              · simp [store, h1, h2, h3, h4, h5]
              · exfalso
                simp [store, h1, h2, h3, h4, h5] at h

theorem booking_rejection_atomic_witness :
    (store dbC8 1 { provider_id := some 1, date := some 0 } 0).2 = dbC8 :=
  booking_rejection_atomic dbC8 1 { provider_id := some 1, date := some 0 } 0
    .selfBooking (by decide)

/-- C6: Booking validation order — for a schema-valid body, the result
of `store` is exactly determined by the first failing check in the
spec's fixed order (1) self-booking, (2) provider flag, (3) past date,
(4) slot free, (5) same-day duplicate; when none fails, the new
appointment is created at the hour-truncated slot. -/
theorem booking_validation_order (db : DB) (u pid : Nat) (d now : Int) :
    (store db u { provider_id := some pid, date := some d } now).1 =
      match specFirstFailure db u pid d now with
      | some r => .err r
      | none => .ok { id := db.nextId, user_id := u, provider_id := pid,
                      date := startOfHour d, canceled_at := none } := by
  by_cases h1 : pid = u
  · simp [store, specFirstFailure, h1]
  · by_cases h2 : (findProvider db pid).isNone
    · simp [store, specFirstFailure, h1, h2]
    · by_cases h3 : isBefore (startOfHour d) now
      · simp [store, specFirstFailure, h1, h2, h3]
      · by_cases h4 : (checkAvailability db pid (startOfHour d)).isSome
        · simp [store, specFirstFailure, h1, h2, h3, h4]
        · by_cases h5 : (checkUserHaveAppointment db u d).isSome
          · simp [store, specFirstFailure, h1, h2, h3, h4, h5]
          · simp [store, specFirstFailure, h1, h2, h3, h4, h5]

/-- C1: Slot exclusivity — `store` preserves the no-two-active-
appointments-per-`(provider, hourStart)` invariant, both for a single
call and along any sequence of calls; it rejects with SlotTaken when
an active appointment occupies the hour-truncated slot and the earlier
checks pass; and any appointment it admits is persisted active with
the hour-truncated date. -/
theorem slot_exclusivity :
    (∀ db u b now, SlotInvariant db → SlotInvariant (store db u b now).2) ∧
    (∀ db reqs, SlotInvariant db → SlotInvariant (runStores db reqs)) ∧
    (∀ db u pid d now, pid ≠ u → ¬ (findProvider db pid).isNone →
      ¬ isBefore (startOfHour d) now →
      (checkAvailability db pid (startOfHour d)).isSome →
      (store db u { provider_id := some pid, date := some d } now).1 = .err .slotTaken) ∧
    (∀ db u b now a, (store db u b now).1 = .ok a →
      a.canceled_at = none ∧ a ∈ (store db u b now).2.appointments ∧
        ∃ t, b.date = some t ∧ a.date = startOfHour t) := by
  refine ⟨store_preserves_slot, runStores_preserves_slot, ?_, ?_⟩
  · intro db u pid d now h1 h2 h3 h4
    simp [store, h1, h2, h3, h4]
  · intro db u b now a h
    rcases b with ⟨po, dato⟩
    cases po with
    | none => simp [store] at h
    | some pid =>
      cases dato with
      | none => simp [store] at h
      | some d =>
        by_cases h1 : pid = u
        · simp [store, h1] at h
        · by_cases h2 : (findProvider db pid).isNone
          · simp [store, h1, h2] at h
          · by_cases h3 : isBefore (startOfHour d) now
            · simp [store, h1, h2, h3] at h
            · by_cases h4 : (checkAvailability db pid (startOfHour d)).isSome
              · simp [store, h1, h2, h3, h4] at h
              · by_cases h5 : (checkUserHaveAppointment db u d).isSome
                · simp [store, h1, h2, h3, h4, h5] at h
                · simp [store, h1, h2, h3, h4, h5] at h
                  subst h
                  refine ⟨rfl, ?_, d, rfl, rfl⟩
                  simp [store, h1, h2, h3, h4, h5]

theorem slot_exclusivity_witness :
    SlotInvariant (runStores dbC1
      [{ userId := 1, body := { provider_id := some 2, date := some 3600 }, now := 0 },
       { userId := 3, body := { provider_id := some 2, date := some 3600 }, now := 0 }]) :=
  slot_exclusivity.2.1 dbC1 _ (by decide)

/-- C2 (amended): Grace-window boundary — for an owned, not-yet-canceled
appointment, cancellation succeeds iff `now ≤ scheduledAt - 2h`
(the boundary is inclusive: `isBefore(scheduledAt - 2h, now)` is the
rejection test), and is rejected with TooLateToCancel iff
`scheduledAt - 2h < now`. -/
theorem cancel_grace_window_inclusive (db : DB) (userId apptId : Nat) (now : Int)
    (appt : Appointment)
    (hfind : findByPk db apptId = some appt)
    (hown : appt.user_id = userId)
    (hact : appt.canceled_at = none) :
    ((delete db userId apptId now true).1 = .ok { appt with canceled_at := some now }
        ↔ now ≤ subHours appt.date 2) ∧
    ((delete db userId apptId now true).1 = .tooLate ↔ subHours appt.date 2 < now) := by
  unfold delete
  rw [hfind]
  by_cases hlt : subHours appt.date 2 < now
  · simp [hown, hact, isBefore, hlt, not_le.mpr hlt]
  · simp [hown, hact, isBefore, hlt, not_lt.mp hlt]

theorem cancel_grace_window_inclusive_witness :
    ((delete dbC2 1 1 0 true).1 =
        .ok { id := 1, user_id := 1, provider_id := 2, date := 7200,
              canceled_at := some 0 } ↔ (0 : Int) ≤ subHours 7200 2) ∧
    ((delete dbC2 1 1 0 true).1 = .tooLate ↔ subHours 7200 2 < (0 : Int)) :=
  cancel_grace_window_inclusive dbC2 1 1 0
    { id := 1, user_id := 1, provider_id := 2, date := 7200, canceled_at := none }
    (by decide) rfl rfl

/-- C2 counterexample: at exactly `scheduledAt - 2h` (here `now = 0`,
slot at 7200) the controller admits the cancellation instead of
rejecting with TooLateToCancel as the claim states. -/
theorem cancel_at_exact_boundary_succeeds :
    (delete dbC2 1 1 0 true).1 =
        .ok { id := 1, user_id := 1, provider_id := 2, date := 7200,
              canceled_at := some 0 } ∧
      (delete dbC2 1 1 0 true).1 ≠ .tooLate := by decide

/-- C4 (amended): an owner's cancellation of an already-canceled
appointment is always rejected with no state change (no write, no
enqueue), but the reason is AlreadyCanceled only while the grace
window is still open; once `scheduledAt - 2h < now` the earlier
grace-window check fires first and the reason is TooLateToCancel. -/
theorem cancel_already_canceled (db : DB) (userId apptId : Nat) (now c : Int)
    (appt : Appointment) (q : Bool)
    (hfind : findByPk db apptId = some appt)
    (hown : appt.user_id = userId)
    (hcanc : appt.canceled_at = some c) :
    delete db userId apptId now q =
      ((if subHours appt.date 2 < now then .tooLate else .alreadyCanceled), db) := by
  unfold delete
  rw [hfind]
  by_cases hlt : subHours appt.date 2 < now
  · simp [hown, isBefore, hlt]
  · simp [hown, hcanc, isBefore, hlt]

theorem cancel_already_canceled_witness :
    delete dbC4w 1 1 0 true = (.alreadyCanceled, dbC4w) := by
  have h := cancel_already_canceled dbC4w 1 1 0 0
    { id := 1, user_id := 1, provider_id := 2, date := 7200, canceled_at := some 0 }
    true (by decide) rfl rfl
  simpa using h

/-- C4 counterexample: an already-canceled appointment whose grace
window has passed is rejected with TooLateToCancel, not
AlreadyCanceled, contradicting "always rejects with AlreadyCanceled
regardless of how the current time relates to the grace window". -/
theorem canceled_past_window_not_alreadyCanceled :
    (delete dbC4 1 1 0 true).1 = .tooLate ∧
      (delete dbC4 1 1 0 true).1 ≠ .alreadyCanceled := by decide

/-- C5: the controller dereferences the `findByPk` result without a
null guard, so cancelling an id absent from the store crashes with a
TypeError instead of returning a typed NotFound result; no store write
and no enqueue happen. -/
theorem cancel_unknown_id_crashes :
    delete dbC5 1 7 0 true = (.nullCrash, dbC5) := by decide

/-- C9 (amended): when `Queue.add` throws after `appointment.save()`,
the cancellation stays persisted (`canceled_at` set, no rollback) and
no job is enqueued, but the exception propagates: the caller gets the
thrown error, not the success response. -/
theorem cancel_enqueue_failure (db : DB) (userId apptId : Nat) (now : Int)
    (appt : Appointment)
    (hfind : findByPk db apptId = some appt)
    (hown : appt.user_id = userId)
    (hact : appt.canceled_at = none)
    (hwin : ¬ subHours appt.date 2 < now) :
    delete db userId apptId now false =
      (.queueThrow, { db with appointments := saveCanceled db.appointments apptId now }) := by
  unfold delete
  rw [hfind]
  simp [hown, hact, isBefore, hwin]

theorem cancel_enqueue_failure_witness :
    delete dbC9 1 1 0 false =
      (.queueThrow, { dbC9 with appointments := saveCanceled dbC9.appointments 1 0 }) :=
  cancel_enqueue_failure dbC9 1 1 0
    { id := 1, user_id := 1, provider_id := 2, date := 7200, canceled_at := none }
    (by decide) rfl rfl (by decide)

/-- C9 counterexample: with a throwing queue, the outcome is the
propagated exception, not the success response the claim promises —
even though the cancellation itself stays persisted and the queue is
untouched. -/
theorem enqueue_failure_not_reported_success :
    delete dbC9 1 1 0 false =
      (.queueThrow,
        { dbC9 with
            appointments := [{ id := 1, user_id := 1, provider_id := 2, date := 7200,
                               canceled_at := some 0 }] }) := by decide

/-- C3 (amended): Future-only boundary — with the earlier checks
passing, `store` rejects with PastDate iff `hourStart(t) < now`
(strictly before); when `hourStart(t) ≥ now` — including equality —
and the remaining checks pass, it admits. -/
theorem booking_past_date_strict (db : DB) (userId pid : Nat) (d now : Int)
    (hself : pid ≠ userId)
    (hprov : ¬ (findProvider db pid).isNone) :
    ((store db userId { provider_id := some pid, date := some d } now).1 = .err .pastDate
        ↔ startOfHour d < now) ∧
    (¬ startOfHour d < now →
      ¬ (checkAvailability db pid (startOfHour d)).isSome →
      ¬ (checkUserHaveAppointment db userId d).isSome →
      (store db userId { provider_id := some pid, date := some d } now).1 =
        .ok { id := db.nextId, user_id := userId, provider_id := pid,
              date := startOfHour d, canceled_at := none }) := by
  constructor
  · by_cases hpd : startOfHour d < now
    · simp [store, hself, hprov, isBefore, hpd]
    · by_cases h4 : (checkAvailability db pid (startOfHour d)).isSome
      · simp [store, hself, hprov, isBefore, hpd, h4]
      · by_cases h5 : (checkUserHaveAppointment db userId d).isSome
        · simp [store, hself, hprov, isBefore, hpd, h4, h5]
        · simp [store, hself, hprov, isBefore, hpd, h4, h5]
  · intro hpd h4 h5
    simp [store, hself, hprov, isBefore, hpd, h4, h5]

theorem booking_past_date_strict_witness :
    (((store dbC3 1 { provider_id := some 2, date := some 3600 } 3600).1 = .err .pastDate)
        ↔ startOfHour 3600 < (3600 : Int)) ∧
    (¬ startOfHour 3600 < (3600 : Int) →
      ¬ (checkAvailability dbC3 2 (startOfHour 3600)).isSome →
      ¬ (checkUserHaveAppointment dbC3 1 3600).isSome →
      (store dbC3 1 { provider_id := some 2, date := some 3600 } 3600).1 =
        .ok { id := dbC3.nextId, user_id := 1, provider_id := 2,
              date := startOfHour 3600, canceled_at := none }) :=
  booking_past_date_strict dbC3 1 2 3600 3600 (by decide) (by decide)

/-- C3 counterexample: with `hourStart(t) = now` (both 3600) and every
other check passing, the booking is admitted, not rejected with
PastDate — the controller's test `isBefore(hourStart, now)` is strict,
so the claim's "hourStart(t) <= now rejects" fails at equality. -/
theorem booking_at_exact_now_admits :
    (store dbC3 1 { provider_id := some 2, date := some 3600 } 3600).1 =
        .ok { id := 1, user_id := 1, provider_id := 2, date := 3600,
              canceled_at := none } ∧
      (store dbC3 1 { provider_id := some 2, date := some 3600 } 3600).1 ≠
        .err .pastDate := by decide

/-- C10: Cancellation frame — a successful cancellation returns
exactly the fetched appointment with only `canceled_at` set to `now`
(id, client, provider and slot unchanged), rewrites the store through
`saveCanceled` (so rows with a different id are untouched and still
present), and leaves users and notifications unchanged. -/
theorem cancel_frame (db : DB) (userId apptId : Nat) (now : Int) (q : Bool)
    (a : Appointment)
    (h : (delete db userId apptId now q).1 = .ok a) :
    ∃ appt, findByPk db apptId = some appt ∧
      a = { appt with canceled_at := some now } ∧
      a.id = appt.id ∧ a.user_id = appt.user_id ∧ a.provider_id = appt.provider_id ∧
      a.date = appt.date ∧
      (delete db userId apptId now q).2.appointments = saveCanceled db.appointments apptId now ∧
      (∀ b ∈ db.appointments, b.id ≠ apptId →
        b ∈ (delete db userId apptId now q).2.appointments) ∧
      (delete db userId apptId now q).2.notifications = db.notifications ∧
      (delete db userId apptId now q).2.users = db.users := by
  cases hfind : findByPk db apptId with
  | none =>
    unfold delete at h
    rw [hfind] at h
    simp at h
  | some appt =>
    unfold delete at h
    rw [hfind] at h
    by_cases hown : appt.user_id ≠ userId
    · simp [hown] at h
    · by_cases hlt : isBefore (subHours appt.date 2) now
      · simp [hown, hlt] at h
      · by_cases hcanc : appt.canceled_at ≠ none
        · simp [hown, hlt, hcanc] at h
        · cases q with
          | false => simp [hown, hlt, hcanc] at h
          | true =>
            simp [hown, hlt, hcanc] at h
            have hst : (delete db userId apptId now true).2 =
                { db with
                    appointments := saveCanceled db.appointments apptId now,
                    queue := db.queue ++ [{ appt with canceled_at := some now }] } := by
              unfold delete
              rw [hfind]
              simp [hown, hlt, hcanc]
            subst h
            rw [hst]
            refine ⟨appt, rfl, rfl, rfl, rfl, rfl, rfl, rfl, ?_, rfl, rfl⟩
            intro b hb hneq
            simp only [saveCanceled, List.mem_map]
            exact ⟨b, hb, by simp [hneq]⟩

theorem cancel_frame_witness :
    ∃ appt, findByPk dbC10 1 = some appt ∧
      ({ id := 1, user_id := 1, provider_id := 2, date := 7200,
         canceled_at := some (0 : Int) } : Appointment) =
        { appt with canceled_at := some 0 } ∧
      ({ id := 1, user_id := 1, provider_id := 2, date := 7200,
         canceled_at := some (0 : Int) } : Appointment).id = appt.id ∧
      ({ id := 1, user_id := 1, provider_id := 2, date := 7200,
         canceled_at := some (0 : Int) } : Appointment).user_id = appt.user_id ∧
      ({ id := 1, user_id := 1, provider_id := 2, date := 7200,
         canceled_at := some (0 : Int) } : Appointment).provider_id = appt.provider_id ∧
      ({ id := 1, user_id := 1, provider_id := 2, date := 7200,
         canceled_at := some (0 : Int) } : Appointment).date = appt.date ∧
      (delete dbC10 1 1 0 true).2.appointments = saveCanceled dbC10.appointments 1 0 ∧
      (∀ b ∈ dbC10.appointments, b.id ≠ 1 →
        b ∈ (delete dbC10 1 1 0 true).2.appointments) ∧
      (delete dbC10 1 1 0 true).2.notifications = dbC10.notifications ∧
      (delete dbC10 1 1 0 true).2.users = dbC10.users :=
  cancel_frame dbC10 1 1 0 true
    { id := 1, user_id := 1, provider_id := 2, date := 7200, canceled_at := some 0 }
    (by decide)
